import Mathlib

/-
Verification development for the matchbox-server matchmaking service.

The definitions below are a shallow embedding of the Rust sources:
  * `src/auth.rs`    — challenge store (`ChallengeManager`).
  * `src/lobby.rs`   — the `Lobby` record and `LobbyStatus`.
  * `src/state.rs`   — `LobbyManager` and `ServerState` operations.
  * `src/lib.rs`     — the HTTP handlers (create / list / join / delete /
    invite / login), modelled as atomic state transformers returning the
    new state together with an HTTP status code.
  * `src/topology.rs` — the per-socket session machine pieces (owner
    start on connect, the relay dispatch, and the teardown path).

Rust `HashMap`s become association lists with unique keys (`tblFind`,
`tblInsert`, `tblErase`); `HashSet`s become duplicate-free lists
(`insertSet`, `List.erase`, membership). Identities are strings (the
Base64 public key), lobby ids and peer ids are naturals, time is a
natural number of seconds. Cryptographic signature verification is a
black box: the login handler is parameterised over its outcome.
-/

set_option autoImplicit false

namespace Matchbox

/-! ### Association-list tables (model of `HashMap`) -/

variable {κ : Type} {ν : Type}

/-- Lookup in an association table (model of `HashMap::get`). -/
def tblFind [DecidableEq κ] : List (κ × ν) → κ → Option ν
  | [], _ => none
  | (k', v) :: rest, k => if k' = k then some v else tblFind rest k

/-- Insert-or-replace in an association table (model of `HashMap::insert`). -/
def tblInsert [DecidableEq κ] : List (κ × ν) → κ → ν → List (κ × ν)
  | [], k, v => [(k, v)]
  | (k', v') :: rest, k, v =>
      if k' = k then (k, v) :: rest else (k', v') :: tblInsert rest k v

/-- Remove a key from an association table (model of `HashMap::remove`). -/
def tblErase [DecidableEq κ] : List (κ × ν) → κ → List (κ × ν)
  | [], _ => []
  | (k', v') :: rest, k =>
      if k' = k then tblErase rest k else (k', v') :: tblErase rest k

@[simp]
theorem tblFind_nil [DecidableEq κ] (k : κ) : tblFind ([] : List (κ × ν)) k = none := rfl

@[simp]
theorem tblFind_insert_self [DecidableEq κ] (t : List (κ × ν)) (k : κ) (v : ν) :
    tblFind (tblInsert t k v) k = some v := by
  induction t with
  | nil => simp [tblFind, tblInsert]
  | cons hd tl ih =>
      by_cases h : hd.1 = k
      · simp [tblInsert, tblFind, h]
      · simpa [tblInsert, tblFind, h] using ih

theorem tblFind_insert_ne [DecidableEq κ] (t : List (κ × ν)) (k k' : κ) (v : ν)
    (h : k' ≠ k) : tblFind (tblInsert t k v) k' = tblFind t k' := by
  induction t with
  | nil => simp [tblFind, tblInsert, Ne.symm h]
  | cons hd tl ih =>
      obtain ⟨a, b⟩ := hd
      by_cases hk : a = k
      · subst hk
        simp [tblInsert, tblFind, Ne.symm h]
      · simp [tblInsert, tblFind, hk, ih]

@[simp]
theorem tblFind_erase_self [DecidableEq κ] (t : List (κ × ν)) (k : κ) :
    tblFind (tblErase t k) k = none := by
  induction t with
  | nil => simp [tblErase]
  | cons hd tl ih =>
      by_cases h : hd.1 = k
      · simpa [tblErase, h] using ih
      · simpa [tblErase, tblFind, h] using ih

theorem tblFind_erase_ne [DecidableEq κ] (t : List (κ × ν)) (k k' : κ)
    (h : k' ≠ k) : tblFind (tblErase t k) k' = tblFind t k' := by
  induction t with
  | nil => simp [tblErase]
  | cons hd tl ih =>
      obtain ⟨a, b⟩ := hd
      by_cases hk : a = k
      · subst hk
        simpa [tblErase, tblFind, Ne.symm h] using ih
      · simp [tblErase, tblFind, hk, ih]

/-- Insert into a set represented as a duplicate-free list
(model of `HashSet::insert`: adds the element only when absent). -/
def insertSet [DecidableEq κ] (xs : List κ) (x : κ) : List κ :=
  if x ∈ xs then xs else xs ++ [x]

@[simp]
theorem mem_insertSet [DecidableEq κ] (xs : List κ) (x y : κ) :
    y ∈ insertSet xs x ↔ y ∈ xs ∨ y = x := by
  unfold insertSet
  by_cases h : x ∈ xs
  · simp only [if_pos h]
    constructor
    · exact Or.inl
    · rintro (hy | rfl)
      · exact hy
      · exact h
  · simp [if_neg h]

end Matchbox

namespace Matchbox

/-! ### Data model (`src/lobby.rs`) -/

/-- A player identity: the Base64-encoded Ed25519 public key. -/
abbrev Identity := String

/-- A lobby id (`Uuid` in the source). -/
abbrev LobbyId := Nat

/-- A peer handle assigned by the signaling substrate (`PeerId`). -/
abbrev PeerId := Nat

/-- A client socket address (`SocketAddr`). -/
abbrev Addr := Nat

/-- `LobbyStatus` from `src/lobby.rs`. -/
inductive LobbyStatus
  | Waiting
  | InProgress
deriving DecidableEq, Repr

/-- `Lobby` from `src/lobby.rs`. `players` and `whitelist` are
`HashSet<String>` in the source, modelled as duplicate-free lists. -/
structure Lobby where
  id : LobbyId
  owner : Identity
  players : List Identity
  status : LobbyStatus
  is_private : Bool
  whitelist : Option (List Identity)
deriving DecidableEq, Repr

/-- The error type returned by `LobbyManager` mutators (`SignalingError`);
the source only ever constructs `UnknownPeer`. -/
inductive SignalingError
  | UnknownPeer
deriving DecidableEq, Repr

/-! ### Lobby registry (`LobbyManager` in `src/state.rs`) -/

/-- `LobbyManager { lobbies: HashMap<Uuid, Lobby> }`. -/
structure LobbyManager where
  lobbies : List (LobbyId × Lobby)
deriving DecidableEq, Repr

/-- `LobbyManager::create_lobby_with_owner`: build a lobby with the owner
already in `players`, status `Waiting`, and insert it. The fresh id picked
by `Uuid::new_v4()` is passed as `newId`. -/
def LobbyManager.create_lobby_with_owner (m : LobbyManager) (is_private : Bool)
    (owner : Identity) (whitelist : Option (List Identity)) (newId : LobbyId) :
    Lobby × LobbyManager :=
  let lobby : Lobby :=
    { id := newId, owner := owner, players := insertSet [] owner,
      status := LobbyStatus.Waiting, is_private := is_private, whitelist := whitelist }
  (lobby, ⟨tblInsert m.lobbies newId lobby⟩)

/-- `LobbyManager::get_lobby`. -/
def LobbyManager.get_lobby (m : LobbyManager) (id : LobbyId) : Option Lobby :=
  tblFind m.lobbies id

/-- The filter predicate inside `LobbyManager::get_lobbies_for_player`,
mirroring the source's early-return structure. -/
def lobbyVisible (pk? : Option Identity) (lobby : Lobby) : Bool :=
  if lobby.is_private = false ∧ lobby.status = LobbyStatus.Waiting then
    true
  else if (match pk? with
           | some pk => lobby.players.contains pk
           | none => false) then
    true
  else if lobby.is_private then
    match lobby.whitelist, pk? with
    | some wl, some pk => wl.contains pk
    | some _, none => false
    | none, _ => false
  else
    false

/-- `LobbyManager::get_lobbies_for_player`: filter the lobby values by
visibility for the (optional) viewer. -/
def LobbyManager.get_lobbies_for_player (m : LobbyManager) (pk? : Option Identity) :
    List Lobby :=
  (m.lobbies.map Prod.snd).filter (lobbyVisible pk?)

/-- `LobbyManager::add_player_to_lobby`: reject when the lobby is missing,
has started, or has a whitelist excluding the player; otherwise insert the
player into the lobby's `players` set. -/
def LobbyManager.add_player_to_lobby (m : LobbyManager) (lobby_id : LobbyId)
    (player_id : Identity) : Except SignalingError LobbyManager :=
  match tblFind m.lobbies lobby_id with
  | some lobby =>
      if lobby.status ≠ LobbyStatus.Waiting then
        Except.error SignalingError.UnknownPeer
      else
        match lobby.whitelist with
        | some wl =>
            if player_id ∈ wl then
              Except.ok ⟨tblInsert m.lobbies lobby_id
                { lobby with players := insertSet lobby.players player_id }⟩
            else
              Except.error SignalingError.UnknownPeer
        | none =>
            Except.ok ⟨tblInsert m.lobbies lobby_id
              { lobby with players := insertSet lobby.players player_id }⟩
  | none => Except.error SignalingError.UnknownPeer

/-- `LobbyManager::start_lobby`: only the owner may start; already-started
is a no-op `Ok`; otherwise `Waiting → InProgress`. -/
def LobbyManager.start_lobby (m : LobbyManager) (lobby_id : LobbyId)
    (owner_id : Identity) : Except SignalingError LobbyManager :=
  match tblFind m.lobbies lobby_id with
  | some lobby =>
      if lobby.owner ≠ owner_id then
        Except.error SignalingError.UnknownPeer
      else if lobby.status ≠ LobbyStatus.Waiting then
        Except.ok m
      else
        Except.ok ⟨tblInsert m.lobbies lobby_id
          { lobby with status := LobbyStatus.InProgress }⟩
  | none => Except.error SignalingError.UnknownPeer

/-- `LobbyManager::end_lobby`: return the lobby to `Waiting`; idempotent. -/
def LobbyManager.end_lobby (m : LobbyManager) (lobby_id : LobbyId) :
    Except SignalingError LobbyManager :=
  match tblFind m.lobbies lobby_id with
  | some lobby =>
      if lobby.status = LobbyStatus.Waiting then
        Except.ok m
      else
        Except.ok ⟨tblInsert m.lobbies lobby_id
          { lobby with status := LobbyStatus.Waiting }⟩
  | none => Except.error SignalingError.UnknownPeer

/-- `LobbyManager::remove_player_from_lobby`: drop the player from the
lobby's `players` set when the lobby exists; silently no-op otherwise. -/
def LobbyManager.remove_player_from_lobby (m : LobbyManager) (lobby_id : LobbyId)
    (player_id : Identity) : LobbyManager :=
  match tblFind m.lobbies lobby_id with
  | some lobby =>
      ⟨tblInsert m.lobbies lobby_id
        { lobby with players := lobby.players.erase player_id }⟩
  | none => m

/-- `LobbyManager::delete_lobby`. -/
def LobbyManager.delete_lobby (m : LobbyManager) (lobby_id : LobbyId) :
    Except SignalingError LobbyManager :=
  match tblFind m.lobbies lobby_id with
  | some _ => Except.ok ⟨tblErase m.lobbies lobby_id⟩
  | none => Except.error SignalingError.UnknownPeer

/-- `LobbyManager::add_to_whitelist`: union the given ids into the
whitelist, creating it when absent. -/
def LobbyManager.add_to_whitelist (m : LobbyManager) (lobby_id : LobbyId)
    (player_ids : List Identity) : Except SignalingError LobbyManager :=
  match tblFind m.lobbies lobby_id with
  | some lobby =>
      match lobby.whitelist with
      | some wl =>
          Except.ok ⟨tblInsert m.lobbies lobby_id
            { lobby with whitelist := some (player_ids.foldl insertSet wl) }⟩
      | none =>
          Except.ok ⟨tblInsert m.lobbies lobby_id
            { lobby with whitelist := some (player_ids.foldl insertSet []) }⟩
  | none => Except.error SignalingError.UnknownPeer

/-! ### Server state (`ServerState` in `src/state.rs`) -/

/-- `ServerState`: the peer registry is modelled by its key set (the
`Peer` values only carry the send channel). The challenge store lives in
its own `ChallengeManager` model below. -/
structure ServerState where
  lobby_manager : LobbyManager
  peers : List PeerId
  players_in_lobbies : List (Identity × LobbyId)
  players_to_peers : List (Identity × PeerId)
  waiting_players : List (Addr × Identity)
deriving DecidableEq, Repr

/-- The empty state built by `ServerState::default()`. -/
def emptyServerState : ServerState :=
  { lobby_manager := ⟨[]⟩, peers := [], players_in_lobbies := [],
    players_to_peers := [], waiting_players := [] }

/-- `ServerState::remove_connection_only`: drop the peer-registry entry and
the `players_to_peers` entry, nothing else. -/
def ServerState.remove_connection_only (s : ServerState) (peer_id : PeerId)
    (player_id : Identity) : ServerState :=
  { s with peers := s.peers.erase peer_id,
           players_to_peers := tblErase s.players_to_peers player_id }

/-- `ServerState::try_send`: succeeds exactly when the target handle is in
the global `peers` map (the channel send itself is abstracted away). -/
def ServerState.try_send (s : ServerState) (id : PeerId) :
    Except SignalingError Unit :=
  if id ∈ s.peers then Except.ok () else Except.error SignalingError.UnknownPeer

/-! ### HTTP handlers (`src/lib.rs`), as atomic state transformers.
Each returns the new `ServerState` paired with the HTTP status code. -/

/-- `create_lobby_handler`: `409` when the caller already has a
`players_in_lobbies` entry; otherwise create the lobby (fresh id `newId`)
with the owner inside and index the owner. -/
def create_lobby_handler (s : ServerState) (sub : Identity) (is_private : Bool)
    (whitelist : Option (List Identity)) (newId : LobbyId) : ServerState × Nat :=
  match tblFind s.players_in_lobbies sub with
  | some _ => (s, 409)
  | none =>
      let r := s.lobby_manager.create_lobby_with_owner is_private sub whitelist newId
      ({ s with lobby_manager := r.2,
                players_in_lobbies := tblInsert s.players_in_lobbies sub r.1.id }, 200)

/-- `list_lobbies_handler`: delegate to `get_lobbies_for_player` with the
identity decoded from the bearer token (or `none`). -/
def list_lobbies_handler (s : ServerState) (pk? : Option Identity) : List Lobby :=
  s.lobby_manager.get_lobbies_for_player pk?

/-- `join_lobby_handler`: idempotent rejoin / conflict on the
`players_in_lobbies` index, then `add_player_to_lobby`; on failure the
error path re-reads the lobby and reports `403` when a whitelist excludes
the caller, `404` otherwise. -/
def join_lobby_handler (s : ServerState) (lobby_id : LobbyId) (sub : Identity) :
    ServerState × Nat :=
  match tblFind s.players_in_lobbies sub with
  | some existing =>
      if existing = lobby_id then (s, 200) else (s, 409)
  | none =>
      match s.lobby_manager.add_player_to_lobby lobby_id sub with
      | Except.ok m =>
          ({ s with lobby_manager := m,
                    players_in_lobbies := tblInsert s.players_in_lobbies sub lobby_id },
           200)
      | Except.error _ =>
          match s.lobby_manager.get_lobby lobby_id with
          | some lobby =>
              match lobby.whitelist with
              | some wl => if sub ∈ wl then (s, 404) else (s, 403)
              | none => (s, 404)
          | none => (s, 404)

/-- `delete_lobby_handler`: `404` when the lobby is absent; owner deletes
the lobby and purges all index entries pointing at it; a non-owner is
removed from the lobby's `players` set and their `players_in_lobbies`
entry is removed (unconditionally, whatever it points to). -/
def delete_lobby_handler (s : ServerState) (lobby_id : LobbyId) (sub : Identity) :
    ServerState × Nat :=
  match s.lobby_manager.get_lobby lobby_id with
  | none => (s, 404)
  | some lobby =>
      if lobby.owner = sub then
        match s.lobby_manager.delete_lobby lobby_id with
        | Except.ok m =>
            ({ s with lobby_manager := m,
                      players_in_lobbies :=
                        s.players_in_lobbies.filter (fun e => decide (e.2 ≠ lobby_id)) },
             200)
        | Except.error _ => (s, 500)
      else
        ({ s with lobby_manager := s.lobby_manager.remove_player_from_lobby lobby_id sub,
                  players_in_lobbies := tblErase s.players_in_lobbies sub }, 200)

/-- `invite_to_lobby_handler`: owner-only union into the whitelist. -/
def invite_to_lobby_handler (s : ServerState) (lobby_id : LobbyId) (sub : Identity)
    (player_public_keys : List Identity) : ServerState × Nat :=
  match s.lobby_manager.get_lobby lobby_id with
  | none => (s, 404)
  | some lobby =>
      if lobby.owner ≠ sub then (s, 403)
      else
        match s.lobby_manager.add_to_whitelist lobby_id player_public_keys with
        | Except.ok m => ({ s with lobby_manager := m }, 200)
        | Except.error _ => (s, 500)

/-! ### Challenge store and login (`src/auth.rs`, `login_handler` in `src/lib.rs`) -/

/-- The challenge store: challenge string to creation instant (seconds). -/
abbrev ChallengeStore := List (String × Nat)

/-- `CHALLENGE_EXPIRATION` (60 seconds). -/
def CHALLENGE_EXPIRATION : Nat := 60

/-- `ChallengeManager::verify_challenge`: when the challenge is present and
younger than 60 s, remove it and report `true`; otherwise leave the store
alone and report `false`. -/
def verify_challenge (challenges : ChallengeStore) (now : Nat) (challenge : String) :
    ChallengeStore × Bool :=
  match tblFind challenges challenge with
  | some created =>
      if now - created < CHALLENGE_EXPIRATION then
        (tblErase challenges challenge, true)
      else
        (challenges, false)
  | none => (challenges, false)

/-- The outcome of the black-box `auth::verify_signature` call:
`err` is `Err(_)` (decode/parse failure), `invalid` is `Ok(false)`,
`valid` is `Ok(true)`. -/
inductive SigResult
  | err
  | invalid
  | valid
deriving DecidableEq, Repr

/-- `login_handler`: verify (and thereby consume) the challenge first,
then check the signature; `issue_jwt` is modelled as succeeding. Returns
the resulting challenge store and the HTTP status. -/
def login_handler (challenges : ChallengeStore) (now : Nat) (challenge : String)
    (sig : SigResult) : ChallengeStore × Nat :=
  match verify_challenge challenges now challenge with
  | (cs, false) => (cs, 401)
  | (cs, true) =>
      match sig with
      | SigResult.err => (cs, 401)
      | SigResult.invalid => (cs, 401)
      | SigResult.valid => (cs, 200)

/-! ### Signaling session pieces (`src/topology.rs`) -/

/-- `JsonPeerEvent`, the server-to-client messages the session emits. -/
inductive PeerEvent
  | NewPeer (p : PeerId)
  | PeerLeft (p : PeerId)
  | Signal (sender : PeerId) (data : String)
deriving DecidableEq, Repr

/-- `PeerRequest`, the client-to-server frames dispatched in the relay loop. -/
inductive PeerRequest
  | Signal (receiver : PeerId) (data : String)
  | KeepAlive
deriving DecidableEq, Repr

/-- One iteration of the relay loop (`topology.rs`, the `match request`
arm): returns the list of (target, event) sends actually performed and
whether the session continues. A failed `try_send` is only logged. -/
def relay_step (s : ServerState) (peer_id : PeerId) (req : PeerRequest) :
    List (PeerId × PeerEvent) × Bool :=
  match req with
  | PeerRequest.Signal r data =>
      match s.try_send r with
      | Except.ok _ => ([(r, PeerEvent.Signal peer_id data)], true)
      | Except.error _ => ([], true)
  | PeerRequest.KeepAlive => ([], true)

/-- The owner-connect step of the session (`topology.rs` lines 62-78):
when the lobby exists and the connecting player is its owner, call
`start_lobby`; a failure there is only logged. -/
def session_owner_start (m : LobbyManager) (lobby_id : LobbyId)
    (player_id : Identity) : LobbyManager :=
  match m.get_lobby lobby_id with
  | some lobby =>
      if lobby.owner = player_id then
        match m.start_lobby lobby_id player_id with
        | Except.ok m2 => m2
        | Except.error _ => m
      else m
  | none => m

/-- The teardown path of the session (`topology.rs` lines 143-166):
connection-only removal, then `end_lobby` when no member of the lobby
still has a `players_to_peers` entry. -/
def session_teardown (s : ServerState) (peer_id : PeerId) (player_id : Identity)
    (lobby_id : LobbyId) : ServerState :=
  let s1 := s.remove_connection_only peer_id player_id
  let lobby_players :=
    match s1.lobby_manager.get_lobby lobby_id with
    | some l => l.players
    | none => []
  let any_connected := lobby_players.any (fun p => (tblFind s1.players_to_peers p).isSome)
  if any_connected then s1
  else
    match s1.lobby_manager.end_lobby lobby_id with
    | Except.ok m2 => { s1 with lobby_manager := m2 }
    | Except.error _ => s1

/-! ### Lobby-operation traces (for the cross-operation invariants) -/

/-- One HTTP lobby operation, as named in the spec's §8 property tests:
create, join, DELETE (owner delete / non-owner leave), invite. -/
inductive LobbyOp
  | create (newId : LobbyId) (owner : Identity) (is_private : Bool)
      (whitelist : Option (List Identity))
  | join (lobby_id : LobbyId) (caller : Identity)
  | deleteOrLeave (lobby_id : LobbyId) (caller : Identity)
  | invite (lobby_id : LobbyId) (caller : Identity) (ids : List Identity)
deriving Repr

/-- Apply one lobby operation through its HTTP handler, keeping the state. -/
def applyOp (s : ServerState) (op : LobbyOp) : ServerState :=
  match op with
  | LobbyOp.create newId owner ip wl => (create_lobby_handler s owner ip wl newId).1
  | LobbyOp.join lid c => (join_lobby_handler s lid c).1
  | LobbyOp.deleteOrLeave lid c => (delete_lobby_handler s lid c).1
  | LobbyOp.invite lid c ids => (invite_to_lobby_handler s lid c ids).1

/-- Run a sequence of lobby operations from a given state. -/
def runOps (s : ServerState) (ops : List LobbyOp) : ServerState :=
  ops.foldl applyOp s

/-- Invariant 1 of the spec: each Identity appears in at most one lobby's
`players` set (two lobby entries sharing a player must be the same key). -/
def atMostOneLobbyPerPlayer (s : ServerState) : Prop :=
  ∀ e1 ∈ s.lobby_manager.lobbies, ∀ e2 ∈ s.lobby_manager.lobbies,
    ∀ p ∈ e1.2.players, p ∈ e2.2.players → e1.1 = e2.1

instance (s : ServerState) : Decidable (atMostOneLobbyPerPlayer s) := by
  unfold atMostOneLobbyPerPlayer
  infer_instance

end Matchbox

namespace Matchbox

/-! ## Claim C1 — one lobby per player across operation sequences -/

/-- The four-operation trace refuting Invariant 1: A creates lobby 1,
B creates lobby 2, A issues DELETE on lobby 2 (the non-owner branch
purges A's `players_in_lobbies` entry, which pointed at lobby 1, while
A stays in lobby 1's `players`), then A joins lobby 2. -/
def c1_failing_trace : List LobbyOp :=
  [LobbyOp.create 1 "A" false none, LobbyOp.create 2 "B" false none,
   LobbyOp.deleteOrLeave 2 "A", LobbyOp.join 2 "A"]

/-- Claim C1: the claimed invariant (each Identity in at most one lobby's
`players` set after every operation from the empty state) is violated by
`c1_failing_trace`: afterwards identity "A" is in the `players` set of
both lobby 1 and lobby 2. -/
theorem C1_one_lobby_invariant_violated :
    ¬ atMostOneLobbyPerPlayer (runOps emptyServerState c1_failing_trace) ∧
    ((runOps emptyServerState c1_failing_trace).lobby_manager.get_lobby 1).map
      (fun l => l.players.contains "A") = some true ∧
    ((runOps emptyServerState c1_failing_trace).lobby_manager.get_lobby 2).map
      (fun l => l.players.contains "A") = some true := by
  decide

/-! ## Claim C2 — non-owner DELETE as leave, and its frame -/

/-- The state after A creates lobby 1 and B creates lobby 2. -/
def c2_state : ServerState :=
  runOps emptyServerState [LobbyOp.create 1 "A" false none, LobbyOp.create 2 "B" false none]

/-- Claim C2: refuted frame condition. A is a member of lobby 1 only.
A's DELETE on lobby 2 (existing, not owned by A, A not a member) returns
200 but erases A's `players_in_lobbies` entry — which pointed at lobby 1 —
while leaving A inside lobby 1's `players` set; the claim says that entry
is left unchanged. -/
theorem C2_leave_purges_foreign_index_entry :
    (delete_lobby_handler c2_state 2 "A").2 = 200 ∧
    tblFind c2_state.players_in_lobbies "A" = some 1 ∧
    tblFind (delete_lobby_handler c2_state 2 "A").1.players_in_lobbies "A" = none ∧
    ((delete_lobby_handler c2_state 2 "A").1.lobby_manager.get_lobby 1).map
      (fun l => l.players.contains "A") = some true := by
  decide

/-! ## Claim C3 — challenge consumption on a failed signature -/

/-- Claim C3: refutation at a concrete input. The store holds challenge
"c" issued at time 0; a login at time 10 with a failing signature returns
401 but consumes the challenge (the store is empty afterwards), and a
retry at time 20 with a valid signature also returns 401 — the claim says
the challenge survives and the retry succeeds. -/
theorem C3_challenge_consumed_on_failed_signature :
    (login_handler [("c", 0)] 10 "c" SigResult.invalid).2 = 401 ∧
    (login_handler [("c", 0)] 10 "c" SigResult.invalid).1 = [] ∧
    (login_handler (login_handler [("c", 0)] 10 "c" SigResult.invalid).1
      20 "c" SigResult.valid).2 = 401 := by
  decide

/-- A valid challenge check is exactly "remove it and answer true". -/
theorem verify_challenge_true_eq (cs : ChallengeStore) (now : Nat) (c : String)
    (h : (verify_challenge cs now c).2 = true) :
    verify_challenge cs now c = (tblErase cs c, true) := by
  cases hf : tblFind cs c with
  | none => simp [verify_challenge, hf] at h
  | some created =>
      by_cases ht : now - created < CHALLENGE_EXPIRATION
      · simp [verify_challenge, hf, ht]
      · simp [verify_challenge, hf, ht] at h

/-- Claim C3 (amended): a login presenting a valid challenge consumes it
whatever the signature outcome — the resulting store is the store with the
challenge erased — and a later login reusing the same challenge returns
401 even with a valid signature. -/
theorem C3_amended_consumption (cs : ChallengeStore) (now now2 : Nat) (c : String)
    (sig sig2 : SigResult) (h : (verify_challenge cs now c).2 = true) :
    (login_handler cs now c sig).1 = tblErase cs c ∧
    (login_handler (login_handler cs now c sig).1 now2 c sig2).2 = 401 := by
  have hv := verify_challenge_true_eq cs now c h
  have h1 : (login_handler cs now c sig).1 = tblErase cs c := by
    unfold login_handler
    rw [hv]
    cases sig <;> rfl
  refine ⟨h1, ?_⟩
  rw [h1]
  unfold login_handler verify_challenge
  rw [tblFind_erase_self]

/-- Claim C3 amended, witnessed at the concrete store `[("c", 0)]`. -/
theorem C3_amended_consumption_witness :
    (login_handler [("c", 0)] 10 "c" SigResult.invalid).1 = tblErase [("c", 0)] "c" ∧
    (login_handler (login_handler [("c", 0)] 10 "c" SigResult.invalid).1
      20 "c" SigResult.valid).2 = 401 :=
  C3_amended_consumption [("c", 0)] 10 20 "c" SigResult.invalid SigResult.valid (by decide)

/-! ## Claim C4 — join on a lobby that is not Waiting -/

/-- A started (InProgress) private lobby owned by "O" whose whitelist is
`{"O", "W"}`; identity "P" is in no lobby. -/
def c4_state : ServerState :=
  { emptyServerState with
      lobby_manager :=
        ⟨[(1, ⟨1, "O", ["O"], LobbyStatus.InProgress, true, some ["O", "W"]⟩)]⟩,
      players_in_lobbies := [("O", 1)] }

/-- Claim C4: refutation at a concrete input. Identity "P" (in no lobby)
joins existing lobby 1 whose status is `InProgress`; the claim says every
such join returns 404, but because the lobby's whitelist excludes "P" the
handler's error path answers 403. -/
theorem C4_nonwaiting_join_not_always_404 :
    (join_lobby_handler c4_state 1 "P").2 = 403 ∧
    (join_lobby_handler c4_state 1 "P").2 ≠ 404 := by
  decide

/-- Claim C4 (amended): for an identity in no lobby and an existing lobby
whose status is not `Waiting`, join leaves the state unchanged and returns
404 — except when the lobby has a whitelist not containing the identity,
in which case it returns 403. -/
theorem C4_amended_join_nonwaiting (s : ServerState) (lid : LobbyId) (sub : Identity)
    (lobby : Lobby) (hpil : tblFind s.players_in_lobbies sub = none)
    (hlob : tblFind s.lobby_manager.lobbies lid = some lobby)
    (hst : lobby.status ≠ LobbyStatus.Waiting) :
    join_lobby_handler s lid sub =
      (s, match lobby.whitelist with
          | some wl => if sub ∈ wl then 404 else 403
          | none => 404) := by
  have hadd : s.lobby_manager.add_player_to_lobby lid sub =
      Except.error SignalingError.UnknownPeer := by
    simp [LobbyManager.add_player_to_lobby, hlob, hst]
  cases hwl : lobby.whitelist with
  | some wl =>
      by_cases hmem : sub ∈ wl
      · simp [join_lobby_handler, hpil, hadd, LobbyManager.get_lobby, hlob, hwl, hmem]
      · simp [join_lobby_handler, hpil, hadd, LobbyManager.get_lobby, hlob, hwl, hmem]
  | none =>
      simp [join_lobby_handler, hpil, hadd, LobbyManager.get_lobby, hlob, hwl]

/-- Claim C4 amended, witnessed on `c4_state` (whitelist excludes "P"). -/
theorem C4_amended_join_nonwaiting_witness :
    join_lobby_handler c4_state 1 "P" = (c4_state, 403) := by
  have h := C4_amended_join_nonwaiting c4_state 1 "P"
    ⟨1, "O", ["O"], LobbyStatus.InProgress, true, some ["O", "W"]⟩
    (by decide) (by decide) (by decide)
  exact h.trans (by decide)

/-! ## Claim C5 — websocket teardown frame and lobby-status reset -/

/-- Claim C5: the teardown path removes exactly the peer-registry entry
and the `players_to_peers` entry of the leaving player; it leaves
`players_in_lobbies`, `waiting_players`, the lobby's `players` set and all
other lobbies untouched; and the lobby's resulting status is `Waiting`
exactly when no member of the lobby still has a `players_to_peers` entry
after the removal, and is otherwise unchanged. -/
theorem C5_teardown_connection_only (s : ServerState) (peer_id : PeerId)
    (player_id : Identity) (lobby_id : LobbyId) (lobby : Lobby)
    (hlob : tblFind s.lobby_manager.lobbies lobby_id = some lobby) :
    (session_teardown s peer_id player_id lobby_id).players_in_lobbies =
      s.players_in_lobbies ∧
    (session_teardown s peer_id player_id lobby_id).waiting_players =
      s.waiting_players ∧
    (session_teardown s peer_id player_id lobby_id).peers = s.peers.erase peer_id ∧
    (session_teardown s peer_id player_id lobby_id).players_to_peers =
      tblErase s.players_to_peers player_id ∧
    tblFind (session_teardown s peer_id player_id lobby_id).lobby_manager.lobbies
        lobby_id =
      some { lobby with status :=
        if (lobby.players.any
            (fun p => (tblFind (tblErase s.players_to_peers player_id) p).isSome))
        then lobby.status
        else LobbyStatus.Waiting } ∧
    (∀ lid2, lid2 ≠ lobby_id →
      tblFind (session_teardown s peer_id player_id lobby_id).lobby_manager.lobbies
          lid2 =
        tblFind s.lobby_manager.lobbies lid2) := by
  obtain ⟨lid0, ow, pl, st, ip, wl⟩ := lobby
  by_cases hany : (pl.any
      (fun p => (tblFind (tblErase s.players_to_peers player_id) p).isSome)) = true
  · simp [session_teardown, ServerState.remove_connection_only,
      LobbyManager.get_lobby, hlob, hany]
  · by_cases hW : st = LobbyStatus.Waiting
    · subst hW
      simp [session_teardown, ServerState.remove_connection_only,
        LobbyManager.get_lobby, LobbyManager.end_lobby, hlob, hany]
    · have hIP : st = LobbyStatus.InProgress := by
        cases st
        · exact absurd rfl hW
        · rfl
      subst hIP
      refine ⟨?_, ?_, ?_, ?_, ?_, ?_⟩
      · simp [session_teardown, ServerState.remove_connection_only,
          LobbyManager.get_lobby, LobbyManager.end_lobby, hlob, hany]
      · simp [session_teardown, ServerState.remove_connection_only,
          LobbyManager.get_lobby, LobbyManager.end_lobby, hlob, hany]
      · simp [session_teardown, ServerState.remove_connection_only,
          LobbyManager.get_lobby, LobbyManager.end_lobby, hlob, hany]
      · simp [session_teardown, ServerState.remove_connection_only,
          LobbyManager.get_lobby, LobbyManager.end_lobby, hlob, hany]
      · simp [session_teardown, ServerState.remove_connection_only,
          LobbyManager.get_lobby, LobbyManager.end_lobby, hlob, hany,
          tblFind_insert_self]
      · intro lid2 hne
        simp [session_teardown, ServerState.remove_connection_only,
          LobbyManager.get_lobby, LobbyManager.end_lobby, hlob, hany,
          tblFind_insert_ne _ _ _ _ hne]

/-- The state for the C5 witness: lobby 1 is InProgress with single member
"O", who is connected as peer 5. -/
def c5_state : ServerState :=
  { lobby_manager := ⟨[(1, ⟨1, "O", ["O"], LobbyStatus.InProgress, false, none⟩)]⟩,
    peers := [5], players_in_lobbies := [("O", 1)],
    players_to_peers := [("O", 5)], waiting_players := [] }

/-- Claim C5, witnessed: tearing down "O"'s socket keeps the membership
tables and returns lobby 1 to Waiting (no member remains connected). -/
theorem C5_teardown_connection_only_witness :
    (session_teardown c5_state 5 "O" 1).players_in_lobbies =
      c5_state.players_in_lobbies ∧
    tblFind (session_teardown c5_state 5 "O" 1).lobby_manager.lobbies 1 =
      some ⟨1, "O", ["O"], LobbyStatus.Waiting, false, none⟩ := by
  have h := C5_teardown_connection_only c5_state 5 "O" 1
    ⟨1, "O", ["O"], LobbyStatus.InProgress, false, none⟩ (by decide)
  exact ⟨h.1, h.2.2.2.2.1.trans (by decide)⟩

/-! ## Claim C6 — owner connect starts the lobby; start_lobby semantics -/

/-- Claim C6: when the correlated identity owns the lobby and its status
is Waiting the session's owner-connect step sets the status to InProgress;
`start_lobby` by a non-owner returns an error (and produces no new state);
`start_lobby` on a lobby already InProgress is a no-op returning `Ok`. -/
theorem C6_owner_start_semantics (m : LobbyManager) (lid : LobbyId) (lobby : Lobby)
    (hlob : tblFind m.lobbies lid = some lobby) :
    (lobby.status = LobbyStatus.Waiting →
      tblFind (session_owner_start m lid lobby.owner).lobbies lid =
        some { lobby with status := LobbyStatus.InProgress }) ∧
    (∀ caller : Identity, caller ≠ lobby.owner →
      m.start_lobby lid caller = Except.error SignalingError.UnknownPeer) ∧
    (lobby.status = LobbyStatus.InProgress → m.start_lobby lid lobby.owner = Except.ok m) := by
  refine ⟨?_, ?_, ?_⟩
  · intro hW
    simp [session_owner_start, LobbyManager.get_lobby, LobbyManager.start_lobby,
      hlob, hW]
  · intro caller hc
    simp [LobbyManager.start_lobby, hlob, Ne.symm hc]
  · intro hIP
    simp [LobbyManager.start_lobby, hlob, hIP]

/-- A Waiting lobby owned by "O". -/
def c6_lobbyW : Lobby := ⟨1, "O", ["O"], LobbyStatus.Waiting, false, none⟩

/-- The same lobby already InProgress. -/
def c6_lobbyIP : Lobby := ⟨1, "O", ["O"], LobbyStatus.InProgress, false, none⟩

/-- Claim C6, witnessed: the owner's connect step starts the Waiting
lobby; "X" cannot start it; a second owner start is an `Ok` no-op. -/
theorem C6_owner_start_semantics_witness :
    tblFind (session_owner_start ⟨[(1, c6_lobbyW)]⟩ 1 "O").lobbies 1 =
      some c6_lobbyIP ∧
    LobbyManager.start_lobby ⟨[(1, c6_lobbyIP)]⟩ 1 "X" =
      Except.error SignalingError.UnknownPeer ∧
    LobbyManager.start_lobby ⟨[(1, c6_lobbyIP)]⟩ 1 "O" =
      Except.ok ⟨[(1, c6_lobbyIP)]⟩ := by
  have h1 := C6_owner_start_semantics ⟨[(1, c6_lobbyW)]⟩ 1 c6_lobbyW (by decide)
  have h2 := C6_owner_start_semantics ⟨[(1, c6_lobbyIP)]⟩ 1 c6_lobbyIP (by decide)
  exact ⟨(h1.1 (by decide)).trans (by decide), h2.2.1 "X" (by decide),
    h2.2.2 (by decide)⟩

/-! ## Claim C7 — POST /lobbies semantics -/

/-- Claim C7: create returns 409 Conflict (with the state unchanged) iff
the caller already has a `players_in_lobbies` entry; otherwise it returns
200 and produces a Waiting lobby whose `players` set is exactly the owner,
inserts the owner-to-lobby entry, and touches no other table. -/
theorem C7_create_semantics (s : ServerState) (sub : Identity) (is_private : Bool)
    (whitelist : Option (List Identity)) (newId : LobbyId) :
    (((create_lobby_handler s sub is_private whitelist newId).2 = 409 ∧
      (create_lobby_handler s sub is_private whitelist newId).1 = s) ↔
      (tblFind s.players_in_lobbies sub).isSome = true) ∧
    (tblFind s.players_in_lobbies sub = none →
      (create_lobby_handler s sub is_private whitelist newId).2 = 200 ∧
      (create_lobby_handler s sub is_private whitelist newId).1.lobby_manager.lobbies =
        tblInsert s.lobby_manager.lobbies newId
          ⟨newId, sub, [sub], LobbyStatus.Waiting, is_private, whitelist⟩ ∧
      (create_lobby_handler s sub is_private whitelist newId).1.players_in_lobbies =
        tblInsert s.players_in_lobbies sub newId ∧
      (create_lobby_handler s sub is_private whitelist newId).1.peers = s.peers ∧
      (create_lobby_handler s sub is_private whitelist newId).1.players_to_peers =
        s.players_to_peers ∧
      (create_lobby_handler s sub is_private whitelist newId).1.waiting_players =
        s.waiting_players) := by
  cases h : tblFind s.players_in_lobbies sub with
  | some v =>
      constructor
      · simp [create_lobby_handler, h]
      · intro hn
        simp [h] at hn
  | none =>
      constructor
      · simp [create_lobby_handler, h]
      · intro _
        simp [create_lobby_handler, h, LobbyManager.create_lobby_with_owner, insertSet]

/-- Claim C7, witnessed on the empty state: "A" creates lobby 1. -/
theorem C7_create_semantics_witness :
    (create_lobby_handler emptyServerState "A" false none 1).2 = 200 ∧
    (create_lobby_handler emptyServerState "A" false none 1).1.lobby_manager.lobbies =
      tblInsert emptyServerState.lobby_manager.lobbies 1
        ⟨1, "A", ["A"], LobbyStatus.Waiting, false, none⟩ := by
  have h := (C7_create_semantics emptyServerState "A" false none 1).2 (by decide)
  exact ⟨h.1, h.2.1⟩

/-! ## Claim C8 — idempotent rejoin -/

/-- Claim C8: when the caller's `players_in_lobbies` entry already equals
the requested lobby id, join returns 200 and the entire state is
unchanged, whatever the lobby's status or whitelist. -/
theorem C8_idempotent_rejoin (s : ServerState) (lid : LobbyId) (sub : Identity)
    (h : tblFind s.players_in_lobbies sub = some lid) :
    join_lobby_handler s lid sub = (s, 200) := by
  simp [join_lobby_handler, h]

/-- Claim C8, witnessed: "A" rejoins lobby 7 it is indexed into. -/
theorem C8_idempotent_rejoin_witness :
    join_lobby_handler { emptyServerState with players_in_lobbies := [("A", 7)] } 7 "A" =
      ({ emptyServerState with players_in_lobbies := [("A", 7)] }, 200) :=
  C8_idempotent_rejoin { emptyServerState with players_in_lobbies := [("A", 7)] } 7 "A"
    (by decide)

/-! ## Claim C9 — discovery visibility -/

/-- The visibility predicate of spec §4.3, written from the spec's words:
public Waiting lobbies; lobbies whose `players` contain the viewer;
private lobbies whose whitelist contains the viewer. -/
def visibleSpec (pk? : Option Identity) (l : Lobby) : Prop :=
  (l.is_private = false ∧ l.status = LobbyStatus.Waiting) ∨
  (∃ pk, pk? = some pk ∧ pk ∈ l.players) ∨
  (l.is_private = true ∧ ∃ wl, l.whitelist = some wl ∧ ∃ pk, pk? = some pk ∧ pk ∈ wl)

/-- The source's discovery filter decides exactly the spec's §4.3
visibility predicate. -/
theorem lobbyVisible_eq_true_iff (pk? : Option Identity) (l : Lobby) :
    lobbyVisible pk? l = true ↔ visibleSpec pk? l := by
  obtain ⟨id0, ow, pl, st, ip, wl⟩ := l
  cases pk? with
  | none =>
      cases ip <;> cases st <;> cases wl <;> simp [lobbyVisible, visibleSpec]
  | some pk =>
      cases ip <;> cases st <;> cases wl <;>
        by_cases hpl : pk ∈ pl <;>
          simp [lobbyVisible, visibleSpec, List.elem_iff, hpl]

/-- Claim C9: a lobby is in the discovery result for a viewer iff it is a
lobby of the table and satisfies the §4.3 visibility predicate; an
unauthenticated viewer sees exactly the Waiting public lobbies. -/
theorem C9_discovery_visibility (m : LobbyManager) (pk? : Option Identity) (l : Lobby) :
    (l ∈ m.get_lobbies_for_player pk? ↔
      l ∈ m.lobbies.map Prod.snd ∧ visibleSpec pk? l) ∧
    (l ∈ m.get_lobbies_for_player none ↔
      l ∈ m.lobbies.map Prod.snd ∧ l.is_private = false ∧
        l.status = LobbyStatus.Waiting) := by
  constructor
  · simp [LobbyManager.get_lobbies_for_player, List.mem_filter,
      lobbyVisible_eq_true_iff]
  · simp [LobbyManager.get_lobbies_for_player, List.mem_filter,
      lobbyVisible_eq_true_iff, visibleSpec]

/-- A public Waiting lobby for the C9 witness. -/
def c9_lobby : Lobby := ⟨1, "O", ["O"], LobbyStatus.Waiting, false, none⟩

/-- Claim C9, witnessed: an unauthenticated viewer sees the public
Waiting lobby `c9_lobby`. -/
theorem C9_discovery_visibility_witness :
    c9_lobby ∈ LobbyManager.get_lobbies_for_player ⟨[(1, c9_lobby)]⟩ none := by
  have h := C9_discovery_visibility ⟨[(1, c9_lobby)]⟩ none c9_lobby
  exact h.2.mpr ⟨by decide, by decide, by decide⟩

/-! ## Claim C10 — relay forwarding is lobby-agnostic -/

/-- Claim C10: a `Signal \x7b receiver, data \x7d` frame from the session of
peer handle `peer_id` produces exactly one forwarded
`Signal \x7b sender := peer_id, data \x7d` to `r` when `r` is in the global
`peers` map — whatever lobby `r` belongs to, since no lobby is consulted —
and no send otherwise; in both cases the session continues. -/
theorem C10_relay_signal (s : ServerState) (peer_id r : PeerId) (data : String) :
    relay_step s peer_id (PeerRequest.Signal r data) =
      ((if r ∈ s.peers then [(r, PeerEvent.Signal peer_id data)] else []), true) := by
  by_cases h : r ∈ s.peers <;> simp [relay_step, ServerState.try_send, h]

/-- A state in which the sender's player "A" is in lobby 1 while the
receiver's player "B" is in lobby 2: both connected. -/
def c10_state : ServerState :=
  { lobby_manager :=
      ⟨[(1, ⟨1, "A", ["A"], LobbyStatus.InProgress, false, none⟩),
        (2, ⟨2, "B", ["B"], LobbyStatus.InProgress, false, none⟩)]⟩,
    peers := [4, 9], players_in_lobbies := [("A", 1), ("B", 2)],
    players_to_peers := [("A", 4), ("B", 9)], waiting_players := [] }

/-- Claim C10, witnessed on `c10_state`: peer 4 (lobby 1) signals peer 9
(lobby 2) and the frame is forwarded. -/
theorem C10_relay_signal_witness :
    relay_step c10_state 4 (PeerRequest.Signal 9 "blob") =
      ([(9, PeerEvent.Signal 4 "blob")], true) := by
  have h := C10_relay_signal c10_state 4 9 "blob"
  exact h.trans (by decide)

end Matchbox
